import Mathlib

/-!
# sqlitekvstore: `include/sqlitekvstore/kvstore.h`

A shallow embedding of the header.  The wrapper code of the header is embedded
as programs that run against a database engine.  The engine itself (SQLite) is
an external library: it is a parameter of every definition (`Engine`), and each
program records the engine calls it issues in a trace.  `std::terminate` is an
outcome of its own, distinct from returning to the caller.
-/

namespace sqlite_kv_store

/-! ## C-level data -/

/-- A C `char` array, terminator included when it comes from a string literal.
The static size `N` of `char const (&)[N]` is the length of the list. -/
abbrev CharArray := List Char

/-- The null character that ends a C string. -/
def NUL : Char := Char.ofNat 0

/-- The array denoted by a C++ string literal: its characters followed by the
terminating null, so that its size is the number of characters plus one. -/
def lit (s : String) : CharArray := s.toList ++ [NUL]

/-- An engine handle (`sqlite3 *` or `sqlite3_stmt *`) as an address. -/
abbrev Handle := Nat

/-- The null pointer. -/
def nullptr : Handle := 0

/-- Conversion of a `std::size_t` template argument to the C `int` parameter of
the engine calls: reduction modulo `2^32` into the signed 32-bit range. -/
def size_t_to_int (n : Nat) : Int :=
  if n % 2 ^ 32 < 2 ^ 31 then ((n % 2 ^ 32 : Nat) : Int)
  else ((n % 2 ^ 32 : Nat) : Int) - 2 ^ 32

/-! ## Engine interface (`sqlite3.h`, not part of the repository) -/

/-- An engine status code (`int`). -/
abbrev Status := Int

/-- Modelled from the spec: the success status of an engine call, the constant
`SQLITE_OK` of `sqlite3.h` (the engine header is not in the repository). -/
def SQLITE_OK : Status := 0

/-- Modelled from the spec: the row-available status of a step, the constant
`SQLITE_ROW` of `sqlite3.h` (the engine header is not in the repository). -/
def SQLITE_ROW : Status := 100

/-- Modelled from the spec: the terminal completion status of a step, the
constant `SQLITE_DONE` of `sqlite3.h` (the engine header is not in the
repository). -/
def SQLITE_DONE : Status := 101

/-- Modelled from the spec: the read/write open flag, the constant
`SQLITE_OPEN_READWRITE` of `sqlite3.h` (the engine header is not in the
repository). -/
def SQLITE_OPEN_READWRITE : Nat := 2

/-- Modelled from the spec: the create-if-absent open flag, the constant
`SQLITE_OPEN_CREATE` of `sqlite3.h` (the engine header is not in the
repository). -/
def SQLITE_OPEN_CREATE : Nat := 4

/-- The destructor argument of `sqlite3_bind_text`. -/
inductive Destructor where
  | SQLITE_STATIC
  | SQLITE_TRANSIENT
  deriving DecidableEq, Repr

/-- One call into the engine with the arguments the header passes.  Arguments
that the header always passes as `nullptr` (the VFS name of `sqlite3_open_v2`,
the callback, callback argument and error-message slot of `sqlite3_exec`, the
tail slot of `sqlite3_prepare_v2`) are left out. -/
inductive Call where
  | open_v2 (filename : CharArray) (flags : Nat)
  | exec (db : Handle) (sql : CharArray)
  | prepare_v2 (db : Handle) (sql : CharArray) (nByte : Int)
  | bind_text (stmt : Handle) (i : Int) (v : CharArray) (n : Int) (d : Destructor)
  | step (stmt : Handle)
  | finalize (stmt : Handle)
  | close_v2 (db : Handle)
  deriving DecidableEq, Repr

/-- The database engine as a parameter: a state and, for each entry point the
header uses, the status it returns, the handle it writes through its out
parameter (for open and prepare), and its next state. -/
structure Engine where
  State : Type
  sqlite3_open_v2 : State → CharArray → Nat → Status × Handle × State
  sqlite3_exec : State → Handle → CharArray → Status × State
  sqlite3_prepare_v2 : State → Handle → CharArray → Int → Status × Handle × State
  sqlite3_bind_text :
    State → Handle → Int → CharArray → Int → Destructor → Status × State
  sqlite3_step : State → Handle → Status × State
  sqlite3_finalize : State → Handle → Status × State
  sqlite3_close_v2 : State → Handle → Status × State

/-- The process as far as the header can affect it: the engine state and the
engine calls issued so far, oldest first. -/
structure World (E : Engine) where
  engine : E.State
  trace : List Call

/-! ## Programs that may call `std::terminate` -/

/-- How a `noexcept` function ends: it returns to its caller, or
`std::terminate` was called and the process is over. -/
inductive Outcome (σ α : Type) where
  | returned (a : α) (s : σ)
  | terminated (s : σ)

/-- The state in which a program ended. -/
def Outcome.world {σ α : Type} : Outcome σ α → σ
  | .returned _ s => s
  | .terminated s => s

/-- Whether control came back to the caller. -/
def Outcome.returns {σ α : Type} : Outcome σ α → Bool
  | .returned _ _ => true
  | .terminated _ => false

/-- A program over state `σ` with result `α`. -/
def Prog (σ α : Type) : Type := σ → Outcome σ α

/-- Sequencing: what follows a call that terminated the process never runs. -/
def Prog.bind {σ α β : Type} (m : Prog σ α) (f : α → Prog σ β) : Prog σ β :=
  fun s =>
    match m s with
    | .returned a s' => f a s'
    | .terminated s' => .terminated s'

/-- Returning a value. -/
def Prog.pure {σ α : Type} (a : α) : Prog σ α := fun s => .returned a s

instance {σ : Type} : Monad (Prog σ) where
  pure := Prog.pure
  bind := Prog.bind

/-- The call `std::terminate()`. -/
def std_terminate {σ α : Type} : Prog σ α := fun s => .terminated s

namespace detail

/-- The function `detail::expects`. -/
def expects {σ : Type} (cond : Bool) : Prog σ Unit :=
  if !cond then std_terminate else pure ()

/-- The function `detail::ensures`. -/
def ensures {σ : Type} (cond : Bool) : Prog σ Unit :=
  if !cond then std_terminate else pure ()

end detail

/-! ## Calls into the engine, recorded in the trace -/

section calls
variable (E : Engine)

/-- A call of `sqlite3_open_v2`; yields the status and the handle written to
the out parameter. -/
def sqlite3_open_v2 (filename : CharArray) (flags : Nat) : Prog (World E) (Status × Handle) :=
  fun w =>
    let r := E.sqlite3_open_v2 w.engine filename flags
    .returned (r.1, r.2.1) ⟨r.2.2, w.trace ++ [Call.open_v2 filename flags]⟩

/-- A call of `sqlite3_exec`. -/
def sqlite3_exec (db : Handle) (sql : CharArray) : Prog (World E) Status :=
  fun w =>
    let r := E.sqlite3_exec w.engine db sql
    .returned r.1 ⟨r.2, w.trace ++ [Call.exec db sql]⟩

/-- A call of `sqlite3_prepare_v2`; yields the status and the handle written to
the out parameter. -/
def sqlite3_prepare_v2 (db : Handle) (sql : CharArray) (nByte : Int) :
    Prog (World E) (Status × Handle) :=
  fun w =>
    let r := E.sqlite3_prepare_v2 w.engine db sql nByte
    .returned (r.1, r.2.1) ⟨r.2.2, w.trace ++ [Call.prepare_v2 db sql nByte]⟩

/-- A call of `sqlite3_bind_text`. -/
def sqlite3_bind_text (stmt : Handle) (i : Int) (v : CharArray) (n : Int) (d : Destructor) :
    Prog (World E) Status :=
  fun w =>
    let r := E.sqlite3_bind_text w.engine stmt i v n d
    .returned r.1 ⟨r.2, w.trace ++ [Call.bind_text stmt i v n d]⟩

/-- A call of `sqlite3_step`. -/
def sqlite3_step (stmt : Handle) : Prog (World E) Status :=
  fun w =>
    let r := E.sqlite3_step w.engine stmt
    .returned r.1 ⟨r.2, w.trace ++ [Call.step stmt]⟩

/-- A call of `sqlite3_finalize`. -/
def sqlite3_finalize (stmt : Handle) : Prog (World E) Status :=
  fun w =>
    let r := E.sqlite3_finalize w.engine stmt
    .returned r.1 ⟨r.2, w.trace ++ [Call.finalize stmt]⟩

/-- A call of `sqlite3_close_v2`. -/
def sqlite3_close_v2 (db : Handle) : Prog (World E) Status :=
  fun w =>
    let r := E.sqlite3_close_v2 w.engine db
    .returned r.1 ⟨r.2, w.trace ++ [Call.close_v2 db]⟩

end calls

/-! ## `namespace detail` -/

namespace detail

/-- The call operator of `detail::stmt_deleter`. -/
def stmt_deleter (E : Engine) (p : Handle) : Prog (World E) Unit := do
  let rc ← sqlite3_finalize E p
  expects (SQLITE_OK == rc)

/-- The call operator of `detail::db_deleter`. -/
def db_deleter (E : Engine) (p : Handle) : Prog (World E) Unit := do
  let rc ← sqlite3_close_v2 E p
  expects (SQLITE_OK == rc)

/-- Destruction of a `stmt_ptr` (`std::unique_ptr<sqlite3_stmt, stmt_deleter>`):
the deleter runs on the owned pointer unless that pointer is null. -/
def stmt_ptr_dtor (E : Engine) (p : Handle) : Prog (World E) Unit :=
  if p = nullptr then pure () else stmt_deleter E p

/-- Destruction of a `db_ptr` (`std::unique_ptr<sqlite3, db_deleter>`): the
deleter runs on the owned pointer unless that pointer is null. -/
def db_ptr_dtor (E : Engine) (p : Handle) : Prog (World E) Unit :=
  if p = nullptr then pure () else db_deleter E p

/-- The struct `detail::db_t`: its one member `db_`, the owned connection. -/
structure db_t where
  db_ : Handle
  deriving DecidableEq, Repr

/-- The constructor `db_t::db_t()`.  The member `db_` starts out null, so the
move assignment that stores the new connection releases nothing. -/
def db_t.ctor (E : Engine) : Prog (World E) db_t := do
  let r ← sqlite3_open_v2 E (lit "") (SQLITE_OPEN_READWRITE ||| SQLITE_OPEN_CREATE)
  expects (SQLITE_OK == r.1)
  pure { db_ := r.2 }

/-- The member function `db_t::get`. -/
def db_t.get (self : db_t) : Handle := self.db_

/-- The member function `db_t::exec`. -/
def db_t.exec (E : Engine) (self : db_t) (sql : CharArray) : Prog (World E) Unit := do
  let rc ← sqlite3_exec E self.db_ sql
  expects (SQLITE_OK == rc)

/-- The struct `detail::stmt_t`: its one member `stmt_`, the owned statement. -/
structure stmt_t where
  stmt_ : Handle
  deriving DecidableEq, Repr

/-- The constructor `stmt_t::stmt_t(db_t &, char const (&sql)[N])`, with `N`
the size of `sql`. -/
def stmt_t.ctor (E : Engine) (db : db_t) (sql : CharArray) : Prog (World E) stmt_t := do
  let r ← sqlite3_prepare_v2 E db.get sql (size_t_to_int sql.length)
  expects (SQLITE_OK == r.1)
  pure { stmt_ := r.2 }

/-- The member function `stmt_t::get`. -/
def stmt_t.get (self : stmt_t) : Handle := self.stmt_

/-- The member function `stmt_t::bind(int i, char const (&v)[N])`, with `N` the
size of `v`. -/
def stmt_t.bind (E : Engine) (self : stmt_t) (i : Int) (v : CharArray) : Prog (World E) Unit := do
  let rc ← sqlite3_bind_text E self.stmt_ i v (size_t_to_int v.length) Destructor.SQLITE_STATIC
  expects (SQLITE_OK == rc)

/-- The member function `stmt_t::exec`. -/
def stmt_t.exec (E : Engine) (self : stmt_t) : Prog (World E) Unit := do
  let rc ← sqlite3_step E self.stmt_
  expects (SQLITE_DONE == rc)

end detail

/-! ## `class kv_store` -/

/-- The raw string literal passed to `db_.exec` in `create_db::create_db`: a
line break, four tabs, the statement with its semicolon, a line break and
three tabs. -/
def create_table_sql : CharArray := lit "\n\t\t\t\tCREATE TABLE kv(key, value);\n\t\t\t"

/-- The string literal passed to the statement constructor in
`inserter::inserter`. -/
def insert_sql : CharArray := lit "INSERT INTO kv(key, value) VALUES(?, ?)"

/-- The struct `kv_store::create_db`. -/
structure create_db where
  db_ : detail.db_t
  deriving DecidableEq, Repr

/-- The constructor `create_db::create_db()`: the member `db_` is constructed,
then the body runs. -/
def create_db.ctor (E : Engine) : Prog (World E) create_db := do
  let db_ ← detail.db_t.ctor E
  db_.exec E create_table_sql
  pure { db_ := db_ }

/-- The struct `kv_store::inserter`. -/
structure inserter where
  insert_ : detail.stmt_t
  deriving DecidableEq, Repr

/-- The constructor `inserter::inserter(create_db &)`. -/
def inserter.ctor (E : Engine) (db : create_db) : Prog (World E) inserter := do
  let insert_ ← detail.stmt_t.ctor E db.db_ insert_sql
  pure { insert_ := insert_ }

/-- The member function `inserter::exec(key, value)`. -/
def inserter.exec (E : Engine) (self : inserter) (key value : CharArray) :
    Prog (World E) Unit := do
  self.insert_.bind E 1 key
  self.insert_.bind E 2 value
  self.insert_.exec E

/-- The class `kv_store`: its members in declaration order. -/
structure kv_store where
  db_ : create_db
  insert_ : inserter
  deriving DecidableEq, Repr

/-- The constructor `kv_store::kv_store()`: members are initialised in
declaration order, `db_` and then `insert_(db_)`. -/
def kv_store.ctor (E : Engine) : Prog (World E) kv_store := do
  let db_ ← create_db.ctor E
  let insert_ ← inserter.ctor E db_
  pure { db_ := db_, insert_ := insert_ }

/-- The member function `kv_store::insert(key, value)`. -/
def kv_store.insert (E : Engine) (self : kv_store) (key value : CharArray) :
    Prog (World E) Unit :=
  self.insert_.exec E key value

/-- The implicit destructor of `kv_store`: members are destroyed in reverse
declaration order, `insert_` (its statement pointer) and then `db_` (its
connection pointer). -/
def kv_store.dtor (E : Engine) (self : kv_store) : Prog (World E) Unit := do
  detail.stmt_ptr_dtor E self.insert_.insert_.stmt_
  detail.db_ptr_dtor E self.db_.db_.db_

/-- The connection handle a store owns. -/
def kv_store.db (self : kv_store) : Handle := self.db_.db_.db_

/-- The statement handle a store owns. -/
def kv_store.stmt (self : kv_store) : Handle := self.insert_.insert_.stmt_

/-! ## Client scopes -/

/-- A sequence of `insert` calls on one store, in list order. -/
def inserts (E : Engine) (s : kv_store) : List (CharArray × CharArray) → Prog (World E) Unit
  | [] => pure ()
  | kv :: rest => do
    s.insert E kv.1 kv.2
    inserts E s rest

/-- A store in the Ready state: constructed, and the given insert calls made on
it. -/
def ready (E : Engine) (kvs : List (CharArray × CharArray)) : Prog (World E) kv_store := do
  let s ← kv_store.ctor E
  inserts E s kvs
  pure s

/-- A store lifetime: a scope that constructs a store, makes the given insert
calls and ends, which destroys the store. -/
def lifetime (E : Engine) (kvs : List (CharArray × CharArray)) : Prog (World E) Unit := do
  let s ← ready E kvs
  s.dtor E

/-! ## Observations on traces -/

/-- Whether a call opens a connection. -/
def Call.is_open : Call → Bool
  | .open_v2 _ _ => true
  | _ => false

/-- Whether a call prepares a statement. -/
def Call.is_prepare : Call → Bool
  | .prepare_v2 _ _ _ => true
  | _ => false

/-- Whether a call executes a prepared statement. -/
def Call.is_step : Call → Bool
  | .step _ => true
  | _ => false

/-- Whether a call finalizes a statement. -/
def Call.is_finalize : Call → Bool
  | .finalize _ => true
  | _ => false

/-- Whether a call closes a connection. -/
def Call.is_close : Call → Bool
  | .close_v2 _ => true
  | _ => false

/-- Whether a call takes a statement handle: bind, step and finalize do. -/
def Call.uses_stmt : Call → Bool
  | .bind_text _ _ _ _ _ => true
  | .step _ => true
  | .finalize _ => true
  | _ => false

/-- Whether no call that takes a statement handle comes after a close. -/
def no_use_after_close : List Call → Bool
  | [] => true
  | c :: rest => (!c.is_close || rest.all (fun d => !d.uses_stmt)) && no_use_after_close rest

/-- The byte lengths passed to the prepare calls of a trace, in order. -/
def prepare_lengths : List Call → List Int
  | [] => []
  | Call.prepare_v2 _ _ nByte :: rest => nByte :: prepare_lengths rest
  | _ :: rest => prepare_lengths rest

/-! ## SQL text as the engine reads it -/

/-- The SQL text the engine reads from `sql`: at most `nByte` bytes (all of it
for negative `nByte`), and nothing from the first null on. -/
def sql_text (sql : CharArray) (nByte : Int) : CharArray :=
  (if nByte < 0 then sql else sql.take nByte.toNat).takeWhile (fun c => c != NUL)

/-- The statement in a SQL text: the text without surrounding white space and
without its closing semicolon. -/
def sql_statement (cs : CharArray) : CharArray :=
  ((cs.dropWhile Char.isWhitespace).reverse.dropWhile
    (fun c => c.isWhitespace || c == ';')).reverse

/-! ## A fault-injecting engine -/

/-- Modelled from the spec: the fault-injecting test double for the engine of
the testable properties.  It answers the calls it receives with the statuses
of a script, in order, and with `SQLITE_OK` once the script is used up; it
hands out the connection handle 1 and the statement handle 2. -/
def scriptedEngine : Engine where
  State := List Status
  sqlite3_open_v2 := fun script _ _ => (script.headD SQLITE_OK, 1, script.tail)
  sqlite3_exec := fun script _ _ => (script.headD SQLITE_OK, script.tail)
  sqlite3_prepare_v2 := fun script _ _ _ => (script.headD SQLITE_OK, 2, script.tail)
  sqlite3_bind_text := fun script _ _ _ _ _ => (script.headD SQLITE_OK, script.tail)
  sqlite3_step := fun script _ => (script.headD SQLITE_OK, script.tail)
  sqlite3_finalize := fun script _ => (script.headD SQLITE_OK, script.tail)
  sqlite3_close_v2 := fun script _ => (script.headD SQLITE_OK, script.tail)

/-! ## A model of the engine -/

namespace spec_engine

/-- Modelled from the spec: a column value, where `none` is SQL `NULL` and
`some bytes` a text value. -/
abbrev Column := Option CharArray

/-- Modelled from the spec: a row of table `kv`, its `key` and `value` columns. -/
abbrev Row := Column × Column

/-- Modelled from the spec: engine status for a generic error (`SQLITE_ERROR`
of `sqlite3.h`). -/
def SQLITE_ERROR : Status := 1

/-- Modelled from the spec: engine status for a call on a handle the engine
does not know (`SQLITE_MISUSE` of `sqlite3.h`). -/
def SQLITE_MISUSE : Status := 21

/-- Modelled from the spec: engine status for a parameter position out of
range (`SQLITE_RANGE` of `sqlite3.h`). -/
def SQLITE_RANGE : Status := 25

/-- Modelled from the spec: the handle of the one connection of the model. -/
def the_db : Handle := 1

/-- Modelled from the spec: the handle of the one prepared statement of the model. -/
def the_stmt : Handle := 2

/-- Modelled from the spec: the state of the modelled engine instance. -/
structure State where
  /-- Whether the connection is open. -/
  connection : Bool
  /-- The rows of table `kv` in rowid order, `none` while the table does not
  exist. -/
  kv : Option (List Row)
  /-- The parameter bindings of the prepared insert statement, `none` while no
  statement is prepared. -/
  insert : Option (Column × Column)
  /-- Whether the prepared statement has been stepped since it was prepared;
  only a reset, which the header never calls, would clear this. -/
  stepped : Bool
  deriving DecidableEq, Repr

/-- Modelled from the spec: a fresh engine instance, with no connection, no
table and no statement. -/
def fresh : State := { connection := false, kv := none, insert := none, stepped := false }

/-- Modelled from the spec: the bytes a text argument of length `n` denotes,
which are the first `n` bytes or, for negative `n`, the bytes before the first
null. -/
def text (v : CharArray) (n : Int) : CharArray :=
  if n < 0 then v.takeWhile (fun c => c != NUL) else v.take n.toNat

/-- Modelled from the spec: opening a connection.  It succeeds once per
engine instance, on the unnamed database, with a fresh, empty database. -/
def open_v2 (s : State) (filename : CharArray) (_flags : Nat) : Status × Handle × State :=
  if s.connection = false ∧ sql_text filename (-1) = [] then
    (SQLITE_OK, the_db, { connection := true, kv := none, insert := none, stepped := false })
  else (SQLITE_ERROR, nullptr, s)

/-- Modelled from the spec: direct execution.  The schema-creation statement
creates the empty table `kv`, once. -/
def exec (s : State) (db : Handle) (sql : CharArray) : Status × State :=
  if db = the_db ∧ s.connection = true then
    if sql_statement (sql_text sql (-1)) = "CREATE TABLE kv(key, value)".toList ∧ s.kv = none
    then (SQLITE_OK, { s with kv := some [] })
    else (SQLITE_ERROR, s)
  else (SQLITE_MISUSE, s)

/-- Modelled from the spec: compilation.  The insert statement compiles once
the table exists; both parameters start out unbound and the statement has not
been stepped. -/
def prepare_v2 (s : State) (db : Handle) (sql : CharArray) (nByte : Int) :
    Status × Handle × State :=
  if db = the_db ∧ s.connection = true then
    if sql_statement (sql_text sql nByte) = "INSERT INTO kv(key, value) VALUES(?, ?)".toList
        ∧ s.kv.isSome = true ∧ s.insert = none
    then (SQLITE_OK, the_stmt, { s with insert := some (none, none), stepped := false })
    else (SQLITE_ERROR, nullptr, s)
  else (SQLITE_MISUSE, nullptr, s)

/-- Modelled from the spec: binding a text parameter.  Position 1 or 2 of the
prepared statement takes the given bytes.  The spec (design notes) leaves open
whether a statement that has been executed accepts fresh binds without a
reset; the engine the header names, SQLite, answers a bind on a statement
stepped more recently than reset with `SQLITE_MISUSE`, and so does the
model. -/
def bind_text (s : State) (stmt : Handle) (i : Int) (v : CharArray) (n : Int)
    (_d : Destructor) : Status × State :=
  match s.insert with
  | some p =>
    if stmt = the_stmt then
      if s.stepped = true then (SQLITE_MISUSE, s)
      else if i = 1 then (SQLITE_OK, { s with insert := some (some (text v n), p.2) })
      else if i = 2 then (SQLITE_OK, { s with insert := some (p.1, some (text v n)) })
      else (SQLITE_RANGE, s)
    else (SQLITE_MISUSE, s)
  | none => (SQLITE_MISUSE, s)

/-- Modelled from the spec: execution to completion.  The insert statement
appends one row holding the current parameter bindings and reports the
terminal completion status; the statement counts as stepped from then on. -/
def step (s : State) (stmt : Handle) : Status × State :=
  match s.insert, s.kv with
  | some p, some rows =>
    if stmt = the_stmt then
      (SQLITE_DONE, { s with kv := some (rows ++ [p]), stepped := true })
    else (SQLITE_MISUSE, s)
  | _, _ => (SQLITE_MISUSE, s)

/-- Modelled from the spec: finalizing the prepared statement. -/
def finalize (s : State) (stmt : Handle) : Status × State :=
  if stmt = the_stmt ∧ s.insert.isSome = true then
    (SQLITE_OK, { s with insert := none, stepped := false })
  else (SQLITE_MISUSE, s)

/-- Modelled from the spec: closing the connection; the in-memory database
goes with it. -/
def close_v2 (s : State) (db : Handle) : Status × State :=
  if db = the_db ∧ s.connection = true then
    (SQLITE_OK, { s with connection := false, kv := none })
  else (SQLITE_MISUSE, s)

end spec_engine

/-- Modelled from the spec: the embedded database engine (SQLite, an external
library of which the repository holds no code), as one instance seen from one
store: one connection to a fresh in-memory database, the untyped two-column
table `kv` without key or uniqueness constraint, and one prepared insert
statement with two positional text parameters.  A bind stores exactly the
given number of bytes; a step appends a row and reports completion; a bind on
a statement that has been stepped and not reset is answered with
`SQLITE_MISUSE`. -/
def specEngine : Engine where
  State := spec_engine.State
  sqlite3_open_v2 := spec_engine.open_v2
  sqlite3_exec := spec_engine.exec
  sqlite3_prepare_v2 := spec_engine.prepare_v2
  sqlite3_bind_text := spec_engine.bind_text
  sqlite3_step := spec_engine.step
  sqlite3_finalize := spec_engine.finalize
  sqlite3_close_v2 := spec_engine.close_v2

/-- Modelled from the spec: direct inspection of table `kv` in an engine state
of the model, its rows in rowid order; empty while the table does not exist. -/
def specEngine.rows (s : specEngine.State) : List spec_engine.Row :=
  match spec_engine.State.kv s with
  | some rows => rows
  | none => []

/-- Modelled from the spec: the world of a fresh process on the model, a fresh
engine and no calls yet. -/
def specEngine.start : World specEngine := { engine := spec_engine.fresh, trace := [] }

/-! ## Sample inputs -/

/-- The store that construction yields on the modelled engine: it owns the
model's connection and statement. -/
def specEngine.store : kv_store :=
  { db_ := { db_ := { db_ := spec_engine.the_db } },
    insert_ := { insert_ := { stmt_ := spec_engine.the_stmt } } }

/-- The three inserts of the concrete scenario: `insert("a", "1")`,
`insert("a", "2")`, `insert("b", "3")`. -/
def scenario : List (CharArray × CharArray) :=
  [(lit "a", lit "1"), (lit "a", lit "2"), (lit "b", lit "3")]

/-- The world on the modelled engine after construction and the first insert of
the scenario, `insert("a", "1")`. -/
def specEngine.after_one : World specEngine :=
  (ready specEngine [(lit "a", lit "1")] specEngine.start).world

/-- A world on the modelled engine right after schema creation: connection
open, table empty, no statement prepared yet. -/
def specEngine.created : World specEngine :=
  { engine := { connection := true, kv := some [], insert := none, stepped := false },
    trace := [] }

/-- A script for the fault-injecting engine under which construction and three
inserts succeed: `SQLITE_OK` for open, exec and prepare, then `SQLITE_OK`,
`SQLITE_OK`, `SQLITE_DONE` for each insert. -/
def scriptedEngine.three_inserts : World scriptedEngine :=
  { engine := [SQLITE_OK, SQLITE_OK, SQLITE_OK,
               SQLITE_OK, SQLITE_OK, SQLITE_DONE,
               SQLITE_OK, SQLITE_OK, SQLITE_DONE,
               SQLITE_OK, SQLITE_OK, SQLITE_DONE],
    trace := [] }

/-- The store that construction yields on the fault-injecting engine. -/
def scriptedEngine.store : kv_store :=
  { db_ := { db_ := { db_ := 1 } }, insert_ := { insert_ := { stmt_ := 2 } } }

/-! ## Running programs step by step -/

open detail

theorem run_bind {σ α β : Type} (m : Prog σ α) (f : α → Prog σ β) (s : σ) :
    (m >>= f) s =
      (match m s with
       | .returned a s' => f a s'
       | .terminated s' => .terminated s') := rfl

theorem run_pure {σ α : Type} (a : α) (s : σ) :
    (pure a : Prog σ α) s = .returned a s := rfl

theorem run_expects {σ : Type} (cond : Bool) (s : σ) :
    (expects cond : Prog σ Unit) s = if cond = true then .returned () s else .terminated s := by
  cases cond <;> rfl

/-- What `stmt_t::bind` does in one world: one `sqlite3_bind_text` call, then
back to the caller on `SQLITE_OK` and termination otherwise. -/
theorem run_stmt_bind (E : Engine) (self : stmt_t) (i : Int) (v : CharArray) (w : World E) :
    self.bind E i v w =
      (if (E.sqlite3_bind_text w.engine self.stmt_ i v (size_t_to_int v.length)
            Destructor.SQLITE_STATIC).1 = SQLITE_OK
       then .returned ()
         ⟨(E.sqlite3_bind_text w.engine self.stmt_ i v (size_t_to_int v.length)
            Destructor.SQLITE_STATIC).2,
          w.trace ++ [Call.bind_text self.stmt_ i v (size_t_to_int v.length)
            Destructor.SQLITE_STATIC]⟩
       else .terminated
         ⟨(E.sqlite3_bind_text w.engine self.stmt_ i v (size_t_to_int v.length)
            Destructor.SQLITE_STATIC).2,
          w.trace ++ [Call.bind_text self.stmt_ i v (size_t_to_int v.length)
            Destructor.SQLITE_STATIC]⟩) := by
  simp only [stmt_t.bind, run_bind, sqlite3_bind_text, run_expects, beq_iff_eq]
  split <;> simp_all [eq_comm]

/-- What `stmt_t::exec` does in one world: one `sqlite3_step` call, then back
to the caller on `SQLITE_DONE` and termination otherwise. -/
theorem run_stmt_exec (E : Engine) (self : stmt_t) (w : World E) :
    self.exec E w =
      (if (E.sqlite3_step w.engine self.stmt_).1 = SQLITE_DONE
       then .returned ()
         ⟨(E.sqlite3_step w.engine self.stmt_).2, w.trace ++ [Call.step self.stmt_]⟩
       else .terminated
         ⟨(E.sqlite3_step w.engine self.stmt_).2, w.trace ++ [Call.step self.stmt_]⟩) := by
  simp only [stmt_t.exec, run_bind, sqlite3_step, run_expects, beq_iff_eq]
  split <;> simp_all [eq_comm]

/-- What `kv_store::insert` does in one world: bind 1, bind 2 and step, each
followed by termination unless it reports the expected status. -/
theorem run_insert (E : Engine) (s : kv_store) (key value : CharArray) (w : World E) :
    let c1 := Call.bind_text s.stmt 1 key (size_t_to_int key.length) Destructor.SQLITE_STATIC
    let c2 := Call.bind_text s.stmt 2 value (size_t_to_int value.length) Destructor.SQLITE_STATIC
    let b1 := E.sqlite3_bind_text w.engine s.stmt 1 key (size_t_to_int key.length)
      Destructor.SQLITE_STATIC
    let b2 := E.sqlite3_bind_text b1.2 s.stmt 2 value (size_t_to_int value.length)
      Destructor.SQLITE_STATIC
    let st := E.sqlite3_step b2.2 s.stmt
    s.insert E key value w =
      (if b1.1 = SQLITE_OK then
        if b2.1 = SQLITE_OK then
          if st.1 = SQLITE_DONE then
            .returned () ⟨st.2, w.trace ++ [c1, c2, Call.step s.stmt]⟩
          else .terminated ⟨st.2, w.trace ++ [c1, c2, Call.step s.stmt]⟩
        else .terminated ⟨b2.2, w.trace ++ [c1, c2]⟩
       else .terminated ⟨b1.2, w.trace ++ [c1]⟩) := by
  intro c1 c2 b1 b2 st
  simp only [kv_store.insert, inserter.exec, run_bind, run_stmt_bind, run_stmt_exec,
    kv_store.stmt, c1, c2, b1, b2, st]
  split_ifs <;> simp_all

/-- What `kv_store::kv_store()` does in one world: open, schema creation and
prepare, each followed by termination unless it reports `SQLITE_OK`. -/
theorem run_ctor (E : Engine) (w : World E) :
    let o := E.sqlite3_open_v2 w.engine (lit "") (SQLITE_OPEN_READWRITE ||| SQLITE_OPEN_CREATE)
    let x := E.sqlite3_exec o.2.2 o.2.1 create_table_sql
    let p := E.sqlite3_prepare_v2 x.2 o.2.1 insert_sql (size_t_to_int insert_sql.length)
    let co := Call.open_v2 (lit "") (SQLITE_OPEN_READWRITE ||| SQLITE_OPEN_CREATE)
    let cx := Call.exec o.2.1 create_table_sql
    let cp := Call.prepare_v2 o.2.1 insert_sql (size_t_to_int insert_sql.length)
    kv_store.ctor E w =
      (if o.1 = SQLITE_OK then
        if x.1 = SQLITE_OK then
          if p.1 = SQLITE_OK then
            .returned ⟨⟨⟨o.2.1⟩⟩, ⟨⟨p.2.1⟩⟩⟩
              ⟨p.2.2, w.trace ++ [co, cx, cp]⟩
          else .terminated ⟨p.2.2, w.trace ++ [co, cx, cp]⟩
        else .terminated ⟨x.2, w.trace ++ [co, cx]⟩
       else .terminated ⟨o.2.2, w.trace ++ [co]⟩) := by
  intro o x p co cx cp
  simp only [kv_store.ctor, create_db.ctor, inserter.ctor, db_t.ctor, db_t.exec, stmt_t.ctor,
    db_t.get, run_bind, run_pure, run_expects, sqlite3_open_v2, sqlite3_exec,
    sqlite3_prepare_v2, beq_iff_eq, o, x, p, co, cx, cp]
  split_ifs <;> simp_all [eq_comm]

/-- What the destructor of a `kv_store` with non-null handles does in one
world: finalize, then close, each followed by termination unless it reports
`SQLITE_OK`. -/
theorem run_dtor (E : Engine) (s : kv_store) (w : World E)
    (hdb : s.db ≠ nullptr) (hst : s.stmt ≠ nullptr) :
    let f := E.sqlite3_finalize w.engine s.stmt
    let c := E.sqlite3_close_v2 f.2 s.db
    s.dtor E w =
      (if f.1 = SQLITE_OK then
        if c.1 = SQLITE_OK then
          .returned () ⟨c.2, w.trace ++ [Call.finalize s.stmt, Call.close_v2 s.db]⟩
        else .terminated ⟨c.2, w.trace ++ [Call.finalize s.stmt, Call.close_v2 s.db]⟩
       else .terminated ⟨f.2, w.trace ++ [Call.finalize s.stmt]⟩) := by
  intro f c
  simp only [kv_store.db, kv_store.stmt] at hdb hst
  simp only [kv_store.dtor, stmt_ptr_dtor, db_ptr_dtor, stmt_deleter, db_deleter, run_bind,
    run_pure, run_expects, sqlite3_finalize, sqlite3_close_v2, beq_iff_eq, if_neg hdb,
    if_neg hst, kv_store.db, kv_store.stmt, f, c]
  split_ifs <;> simp_all [eq_comm]

/-! ## Facts about the two SQL literals -/

theorem insert_sql_size : size_t_to_int insert_sql.length = 40 := by decide

theorem size_t_to_int_of_lt (n : Nat) (h : n < 2 ^ 31) : size_t_to_int n = (n : Int) := by
  have h1 : n % 2 ^ 32 = n := Nat.mod_eq_of_lt (by omega)
  unfold size_t_to_int
  rw [h1, if_pos h]

/-! ## Sequences of programs -/

/-- A construction that completed: the store and the world it leaves. -/
theorem ctor_returned (E : Engine) (w w' : World E) (s : kv_store)
    (h : kv_store.ctor E w = .returned s w') :
    let o := E.sqlite3_open_v2 w.engine (lit "") (SQLITE_OPEN_READWRITE ||| SQLITE_OPEN_CREATE)
    let x := E.sqlite3_exec o.2.2 o.2.1 create_table_sql
    let p := E.sqlite3_prepare_v2 x.2 o.2.1 insert_sql 40
    s = ⟨⟨⟨o.2.1⟩⟩, ⟨⟨p.2.1⟩⟩⟩ ∧
    w' = ⟨p.2.2, w.trace ++
      [Call.open_v2 (lit "") (SQLITE_OPEN_READWRITE ||| SQLITE_OPEN_CREATE),
       Call.exec o.2.1 create_table_sql,
       Call.prepare_v2 o.2.1 insert_sql 40]⟩ := by
  intro o x p
  rw [run_ctor, insert_sql_size] at h
  split_ifs at h
  simp only [Outcome.returned.injEq] at h
  exact ⟨h.1.symm, h.2.symm⟩

theorem run_inserts_nil (E : Engine) (s : kv_store) (w : World E) :
    inserts E s [] w = .returned () w := rfl

theorem run_inserts_cons (E : Engine) (s : kv_store) (kv : CharArray × CharArray)
    (rest : List (CharArray × CharArray)) (w : World E) :
    inserts E s (kv :: rest) w =
      (match s.insert E kv.1 kv.2 w with
       | .returned _ w1 => inserts E s rest w1
       | .terminated w1 => .terminated w1) := by
  simp only [inserts, run_bind]
  cases kv_store.insert E s kv.1 kv.2 w <;> rfl

theorem run_ready (E : Engine) (kvs : List (CharArray × CharArray)) (w : World E) :
    ready E kvs w =
      (match kv_store.ctor E w with
       | .returned s w1 =>
         (match inserts E s kvs w1 with
          | .returned _ w2 => .returned s w2
          | .terminated w2 => .terminated w2)
       | .terminated w1 => .terminated w1) := by
  simp only [ready, run_bind, run_pure]
  cases kv_store.ctor E w with
  | terminated w1 => rfl
  | returned s1 w1 =>
    dsimp only
    cases inserts E s1 kvs w1 <;> rfl

theorem run_lifetime (E : Engine) (kvs : List (CharArray × CharArray)) (w : World E) :
    lifetime E kvs w =
      (match ready E kvs w with
       | .returned s w1 => s.dtor E w1
       | .terminated w1 => .terminated w1) := by
  simp only [lifetime, run_bind]
  cases ready E kvs w <;> rfl

/-- A Ready store comes from a construction that completed followed by inserts
that all returned. -/
theorem ready_returned (E : Engine) (kvs : List (CharArray × CharArray)) (w w2 : World E)
    (s : kv_store) (h : ready E kvs w = .returned s w2) :
    ∃ w1, kv_store.ctor E w = .returned s w1 ∧ inserts E s kvs w1 = .returned () w2 := by
  rw [run_ready] at h
  cases hc : kv_store.ctor E w with
  | terminated w1 => rw [hc] at h; cases h
  | returned s1 w1 =>
    rw [hc] at h
    simp only at h
    cases hi : inserts E s1 kvs w1 with
    | terminated w3 => rw [hi] at h; cases h
    | returned u w3 =>
      rw [hi] at h
      simp only [Outcome.returned.injEq] at h
      obtain ⟨hs, hw⟩ := h
      subst hs hw
      exact ⟨w1, rfl, hi⟩

/-- The calls of a sequence of inserts that all returned: one bind, bind, step
triple per insert, in order. -/
theorem inserts_returned_trace (E : Engine) (s : kv_store) :
    ∀ (kvs : List (CharArray × CharArray)) (w w' : World E),
      inserts E s kvs w = .returned () w' →
      w'.trace = w.trace ++ kvs.flatMap (fun kv =>
        [Call.bind_text s.stmt 1 kv.1 (size_t_to_int kv.1.length) Destructor.SQLITE_STATIC,
         Call.bind_text s.stmt 2 kv.2 (size_t_to_int kv.2.length) Destructor.SQLITE_STATIC,
         Call.step s.stmt]) := by
  intro kvs
  induction kvs with
  | nil =>
    intro w w' h
    rw [run_inserts_nil] at h
    simp only [Outcome.returned.injEq, true_and] at h
    subst h
    simp
  | cons kv rest ih =>
    intro w w' h
    rw [run_inserts_cons, run_insert] at h
    split_ifs at h
    · have := ih _ _ h
      rw [this]
      simp [List.flatMap_cons]

/-- Arrays whose sizes fit a C `int` are passed with their exact size. -/
theorem triples_of_sizes (st : Handle) :
    ∀ (kvs : List (CharArray × CharArray)),
      (∀ kv ∈ kvs, kv.1.length < 2 ^ 31 ∧ kv.2.length < 2 ^ 31) →
      kvs.flatMap (fun kv =>
        [Call.bind_text st 1 kv.1 (size_t_to_int kv.1.length) Destructor.SQLITE_STATIC,
         Call.bind_text st 2 kv.2 (size_t_to_int kv.2.length) Destructor.SQLITE_STATIC,
         Call.step st]) =
      kvs.flatMap (fun kv =>
        [Call.bind_text st 1 kv.1 (kv.1.length : Int) Destructor.SQLITE_STATIC,
         Call.bind_text st 2 kv.2 (kv.2.length : Int) Destructor.SQLITE_STATIC,
         Call.step st]) := by
  intro kvs
  induction kvs with
  | nil => intro _; rfl
  | cons kv rest ih =>
    intro h
    have hkv := h kv (List.mem_cons_self _ _)
    have hrest := ih (fun x hx => h x (List.mem_cons_of_mem _ hx))
    simp only [List.flatMap_cons, hrest, size_t_to_int_of_lt _ hkv.1, size_t_to_int_of_lt _ hkv.2]

/-! ## Which calls each phase of a lifetime can add -/

theorem no_use_after_close_append (pre t : List Call)
    (hpre : pre.all (fun c => !c.is_close) = true) :
    no_use_after_close (pre ++ t) = no_use_after_close t := by
  induction pre with
  | nil => rfl
  | cons c rest ih =>
    simp only [List.all_cons, Bool.and_eq_true] at hpre
    show no_use_after_close (c :: (rest ++ t)) = no_use_after_close t
    simp only [no_use_after_close, ih hpre.2, hpre.1, Bool.true_or, Bool.true_and]

/-- Construction adds no close, however it ends. -/
theorem ctor_adds (E : Engine) (w : World E) :
    ∃ t, (kv_store.ctor E w).world.trace = w.trace ++ t ∧
      t.all (fun c => !c.is_close) = true := by
  rw [run_ctor]
  split_ifs
  all_goals exact ⟨_, rfl, rfl⟩

/-- One insert adds no close, however it ends. -/
theorem insert_adds (E : Engine) (s : kv_store) (key value : CharArray) (w : World E) :
    ∃ t, (s.insert E key value w).world.trace = w.trace ++ t ∧
      t.all (fun c => !c.is_close) = true := by
  rw [run_insert]
  split_ifs
  all_goals exact ⟨_, rfl, rfl⟩

/-- A sequence of inserts adds no close, however it ends. -/
theorem inserts_adds (E : Engine) (s : kv_store) :
    ∀ (kvs : List (CharArray × CharArray)) (w : World E),
      ∃ t, (inserts E s kvs w).world.trace = w.trace ++ t ∧
        t.all (fun c => !c.is_close) = true := by
  intro kvs
  induction kvs with
  | nil => intro w; exact ⟨[], by simp [run_inserts_nil, Outcome.world], rfl⟩
  | cons kv rest ih =>
    intro w
    obtain ⟨t1, h1, hc1⟩ := insert_adds E s kv.1 kv.2 w
    rw [run_inserts_cons]
    cases hx : s.insert E kv.1 kv.2 w with
    | terminated w1 =>
      rw [hx] at h1
      exact ⟨t1, h1, hc1⟩
    | returned u w1 =>
      rw [hx] at h1
      simp only [Outcome.world] at h1
      obtain ⟨t2, h2, hc2⟩ := ih w1
      refine ⟨t1 ++ t2, ?_, ?_⟩
      · simp only [h2, h1, List.append_assoc]
      · simp only [List.all_append, hc1, hc2, Bool.and_self]

/-- Destruction adds at most a finalize followed by a close, however it ends
and whichever of its pointers are null. -/
theorem dtor_adds (E : Engine) (s : kv_store) (w : World E) :
    ∃ t, (s.dtor E w).world.trace = w.trace ++ t ∧ no_use_after_close t = true := by
  by_cases hst : s.stmt = nullptr <;> by_cases hdb : s.db = nullptr
  · refine ⟨[], ?_, rfl⟩
    simp only [kv_store.db, kv_store.stmt] at hdb hst
    simp [kv_store.dtor, stmt_ptr_dtor, db_ptr_dtor, run_bind, run_pure, hst, hdb,
      Outcome.world]
  · refine ⟨[Call.close_v2 s.db], ?_, rfl⟩
    simp only [kv_store.db, kv_store.stmt] at hdb hst ⊢
    simp only [kv_store.dtor, stmt_ptr_dtor, db_ptr_dtor, db_deleter, run_bind, run_pure,
      run_expects, sqlite3_close_v2, hst, hdb, if_true, if_false]
    split_ifs <;> rfl
  · refine ⟨[Call.finalize s.stmt], ?_, rfl⟩
    simp only [kv_store.db, kv_store.stmt] at hdb hst ⊢
    simp only [kv_store.dtor, stmt_ptr_dtor, db_ptr_dtor, stmt_deleter, run_bind, run_pure,
      run_expects, sqlite3_finalize, hst, hdb, if_true, if_false]
    split_ifs <;> rfl
  · rw [run_dtor E s w hdb hst]
    split_ifs
    · exact ⟨[Call.finalize s.stmt, Call.close_v2 s.db], rfl, rfl⟩
    · exact ⟨[Call.finalize s.stmt, Call.close_v2 s.db], rfl, rfl⟩
    · exact ⟨[Call.finalize s.stmt], rfl, rfl⟩

/-- The bind, bind, step triples hold no call of a kind that is neither bind
nor step. -/
theorem countP_triples (p : Call → Bool) (st : Handle)
    (hbind : ∀ i v n d, p (Call.bind_text st i v n d) = false)
    (hstep : p (Call.step st) = false) :
    ∀ (kvs : List (CharArray × CharArray)),
      (kvs.flatMap (fun kv =>
        [Call.bind_text st 1 kv.1 (size_t_to_int kv.1.length) Destructor.SQLITE_STATIC,
         Call.bind_text st 2 kv.2 (size_t_to_int kv.2.length) Destructor.SQLITE_STATIC,
         Call.step st])).countP p = 0 := by
  intro kvs
  induction kvs with
  | nil => rfl
  | cons kv rest ih =>
    simp [List.flatMap_cons, List.countP_append, List.countP_cons, hbind, hstep, ih]

/-! ## The modelled engine under a store -/

theorem text_of_size (v : CharArray) (h : v.length < 2 ^ 31) :
    spec_engine.text v (size_t_to_int v.length) = v := by
  rw [size_t_to_int_of_lt _ h]
  unfold spec_engine.text
  rw [if_neg (by omega)]
  simp

/-- Construction on a fresh modelled engine: it returns a store that owns the
model's connection and statement, with the table present and empty and the
statement not yet stepped. -/
theorem spec_run_ctor :
    kv_store.ctor specEngine specEngine.start =
      .returned specEngine.store
        ⟨{ connection := true, kv := some [], insert := some (none, none), stepped := false },
         [Call.open_v2 (lit "") (SQLITE_OPEN_READWRITE ||| SQLITE_OPEN_CREATE),
          Call.exec spec_engine.the_db create_table_sql,
          Call.prepare_v2 spec_engine.the_db insert_sql 40]⟩ := by
  rfl

/-- One insert on the modelled engine, with the statement prepared and not yet
stepped and the table present: it returns, and the table has one more row,
holding the bytes the two binds denote. -/
theorem spec_run_insert (s : kv_store) (hs : s.stmt = spec_engine.the_stmt)
    (key value : CharArray) (e : spec_engine.State) (t : List Call)
    (p : spec_engine.Column × spec_engine.Column) (rows : List spec_engine.Row)
    (hp : e.insert = some p) (hrows : e.kv = some rows) (hst : e.stepped = false) :
    s.insert specEngine key value ⟨e, t⟩ =
      .returned ()
        ⟨{ connection := e.connection,
           kv := some (rows ++
             [(some (spec_engine.text key (size_t_to_int key.length)),
               some (spec_engine.text value (size_t_to_int value.length)))]),
           insert := some
             (some (spec_engine.text key (size_t_to_int key.length)),
               some (spec_engine.text value (size_t_to_int value.length))),
           stepped := true },
         t ++ [Call.bind_text s.stmt 1 key (size_t_to_int key.length) Destructor.SQLITE_STATIC,
               Call.bind_text s.stmt 2 value (size_t_to_int value.length)
                 Destructor.SQLITE_STATIC,
               Call.step s.stmt]⟩ := by
  rw [run_insert]
  simp [specEngine, spec_engine.bind_text, spec_engine.step, hp, hrows, hs, hst, SQLITE_OK,
    SQLITE_DONE]

/-- The effect of one insert on the table of the modelled engine, in any engine
state and for any store: the call returns and the table has gained the row of
the bytes the two binds denote, or the process terminates and the table is as
it was. -/
theorem spec_insert_effect (s : kv_store) (key value : CharArray) (w : World specEngine) :
    (∃ w', s.insert specEngine key value w = .returned () w' ∧
        specEngine.rows w'.engine = specEngine.rows w.engine ++
          [(some (spec_engine.text key (size_t_to_int key.length)),
            some (spec_engine.text value (size_t_to_int value.length)))]) ∨
      (∃ w', s.insert specEngine key value w = .terminated w' ∧
        specEngine.rows w'.engine = specEngine.rows w.engine) := by
  obtain ⟨⟨c, kv, ins, stepped⟩, t⟩ := w
  by_cases hs : s.stmt = spec_engine.the_stmt
  · cases ins with
    | none =>
      right
      rw [run_insert]
      simp [specEngine, spec_engine.bind_text, spec_engine.SQLITE_MISUSE, SQLITE_OK]
    | some p =>
      cases stepped with
      | true =>
        right
        rw [run_insert]
        simp [specEngine, spec_engine.bind_text, spec_engine.SQLITE_MISUSE, SQLITE_OK, hs]
      | false =>
        cases kv with
        | none =>
          right
          rw [run_insert]
          simp [specEngine, spec_engine.bind_text, spec_engine.step,
            spec_engine.SQLITE_MISUSE, SQLITE_OK, SQLITE_DONE, hs, specEngine.rows]
        | some rows =>
          left
          rw [spec_run_insert s hs key value _ t p rows rfl rfl rfl]
          exact ⟨_, rfl, rfl⟩
  · right
    rw [run_insert]
    cases ins with
    | none => simp [specEngine, spec_engine.bind_text, spec_engine.SQLITE_MISUSE, SQLITE_OK]
    | some p =>
      simp [specEngine, spec_engine.bind_text, spec_engine.SQLITE_MISUSE, SQLITE_OK, hs]

/-- Binds on the modelled engine leave the rows of the table as they are. -/
theorem spec_bind_frame (e : spec_engine.State) (st : Handle) (i : Int) (v : CharArray)
    (n : Int) (d : Destructor) :
    specEngine.rows (specEngine.sqlite3_bind_text e st i v n d).2 = specEngine.rows e := by
  obtain ⟨c, kv, ins, stepped⟩ := e
  cases ins with
  | none => rfl
  | some p =>
    simp only [specEngine, spec_engine.bind_text]
    split_ifs <;> rfl

/-- The array of a string literal has one element more than the literal has
characters. -/
theorem lit_length (str : String) : (lit str).length = str.length + 1 := by
  obtain ⟨cs⟩ := str
  show (cs ++ [NUL]).length = cs.length + 1
  rw [List.length_append]
  rfl

/-- The array of a string literal ends with the terminator. -/
theorem lit_getLast (str : String) : (lit str).getLast? = some NUL := by
  obtain ⟨cs⟩ := str
  show (cs ++ [NUL]).getLast? = some NUL
  rw [List.getLast?_append]
  rfl

/-- Reading a literal up to its terminator gives back its characters. -/
theorem takeWhile_lit (cs : List Char) (h : NUL ∉ cs) :
    (cs ++ [NUL]).takeWhile (fun c => c != NUL) = cs := by
  induction cs with
  | nil => simp [List.takeWhile]
  | cons c rest ih =>
    have hc : c ≠ NUL := fun hc => h (by simp [hc])
    have hrest : NUL ∉ rest := fun hr => h (List.mem_cons_of_mem _ hr)
    have hb : (c != NUL) = true := by simp [hc]
    show List.takeWhile (fun c => c != NUL) (c :: (rest ++ [NUL])) = c :: rest
    rw [List.takeWhile_cons, hb, if_pos rfl, ih hrest]

/-! ## Construction -/

/-- C5. A construction of a `kv_store` that completes has issued exactly three
engine calls, in this order: `sqlite3_open_v2` on the unnamed database with the
read/write and create flags, `sqlite3_exec` of the schema-creation literal on
the connection just opened, and `sqlite3_prepare_v2` of the insert literal on
that same connection.  The store owns that connection and the statement this
prepare produced; the literals hold the statements
`CREATE TABLE kv(key, value)` and `INSERT INTO kv(key, value) VALUES(?, ?)`.
So the one schema creation precedes the one prepare, and no statement has been
executed yet. -/
theorem ctor_issues_open_exec_prepare (E : Engine) (w w' : World E) (s : kv_store)
    (h : kv_store.ctor E w = .returned s w') :
    let o := E.sqlite3_open_v2 w.engine (lit "") (SQLITE_OPEN_READWRITE ||| SQLITE_OPEN_CREATE)
    let x := E.sqlite3_exec o.2.2 o.2.1 create_table_sql
    let p := E.sqlite3_prepare_v2 x.2 o.2.1 insert_sql 40
    w'.trace = w.trace ++
        [Call.open_v2 (lit "") (SQLITE_OPEN_READWRITE ||| SQLITE_OPEN_CREATE),
         Call.exec s.db create_table_sql,
         Call.prepare_v2 s.db insert_sql 40] ∧
      s.db = o.2.1 ∧ s.stmt = p.2.1 ∧ w'.engine = p.2.2 ∧
      sql_statement (sql_text create_table_sql (-1)) = "CREATE TABLE kv(key, value)".toList ∧
      sql_statement (sql_text insert_sql 40)
        = "INSERT INTO kv(key, value) VALUES(?, ?)".toList := by
  intro o x p
  rw [run_ctor, insert_sql_size] at h
  refine ⟨?_, ?_, ?_, ?_, by decide, by decide⟩ <;>
  · split_ifs at h
    simp only [Outcome.returned.injEq] at h
    obtain ⟨hs, hw⟩ := h
    subst hs hw
    rfl

/-- C8. Construction of a `kv_store` completes if and only if the open, the
schema-creation exec and the prepare each return `SQLITE_OK`.  Otherwise the
process terminates at the first of these calls that returns another status:
the trace ends with that call, so no later call of the construction sequence
and no close or finalize is issued, and no store is handed to the caller. -/
theorem ctor_completes_iff (E : Engine) (w : World E) :
    let o := E.sqlite3_open_v2 w.engine (lit "") (SQLITE_OPEN_READWRITE ||| SQLITE_OPEN_CREATE)
    let x := E.sqlite3_exec o.2.2 o.2.1 create_table_sql
    let p := E.sqlite3_prepare_v2 x.2 o.2.1 insert_sql 40
    ((∃ s w', kv_store.ctor E w = .returned s w') ↔
        (o.1 = SQLITE_OK ∧ x.1 = SQLITE_OK ∧ p.1 = SQLITE_OK)) ∧
    (o.1 ≠ SQLITE_OK →
        kv_store.ctor E w = .terminated ⟨o.2.2, w.trace ++
          [Call.open_v2 (lit "") (SQLITE_OPEN_READWRITE ||| SQLITE_OPEN_CREATE)]⟩) ∧
    (o.1 = SQLITE_OK → x.1 ≠ SQLITE_OK →
        kv_store.ctor E w = .terminated ⟨x.2, w.trace ++
          [Call.open_v2 (lit "") (SQLITE_OPEN_READWRITE ||| SQLITE_OPEN_CREATE),
           Call.exec o.2.1 create_table_sql]⟩) ∧
    (o.1 = SQLITE_OK → x.1 = SQLITE_OK → p.1 ≠ SQLITE_OK →
        kv_store.ctor E w = .terminated ⟨p.2.2, w.trace ++
          [Call.open_v2 (lit "") (SQLITE_OPEN_READWRITE ||| SQLITE_OPEN_CREATE),
           Call.exec o.2.1 create_table_sql,
           Call.prepare_v2 o.2.1 insert_sql 40]⟩) := by
  intro o x p
  rw [run_ctor, insert_sql_size]
  refine ⟨?_, ?_, ?_, ?_⟩
  · constructor
    · rintro ⟨s, w', h⟩
      split_ifs at h with h1 h2 h3
      exact ⟨h1, h2, h3⟩
    · rintro ⟨h1, h2, h3⟩
      simp only [o, x, p] at h1 h2 h3
      rw [if_pos h1, if_pos h2, if_pos h3]
      exact ⟨_, _, rfl⟩
  · intro h1
    simp only [o] at h1
    rw [if_neg h1]
  · intro h1 h2
    simp only [o, x] at h1 h2
    rw [if_pos h1, if_neg h2]
  · intro h1 h2 h3
    simp only [o, x, p] at h1 h2 h3
    rw [if_pos h1, if_pos h2, if_neg h3]

/-! ## Insertion -/

/-- C3. The call `insert(key, value)` returns control to the caller if and only
if the bind of parameter 1 returned `SQLITE_OK`, the bind of parameter 2
returned `SQLITE_OK` and the step returned `SQLITE_DONE`; in every other case
the process terminates inside `insert`, in particular when the step reports
`SQLITE_OK` or `SQLITE_ROW` instead of `SQLITE_DONE`. -/
theorem insert_returns_iff (E : Engine) (s : kv_store) (key value : CharArray) (w : World E) :
    let b1 := E.sqlite3_bind_text w.engine s.stmt 1 key (size_t_to_int key.length)
      Destructor.SQLITE_STATIC
    let b2 := E.sqlite3_bind_text b1.2 s.stmt 2 value (size_t_to_int value.length)
      Destructor.SQLITE_STATIC
    let st := E.sqlite3_step b2.2 s.stmt
    ((∃ w', s.insert E key value w = .returned () w') ↔
        (b1.1 = SQLITE_OK ∧ b2.1 = SQLITE_OK ∧ st.1 = SQLITE_DONE)) ∧
    ((∃ w', s.insert E key value w = .terminated w') ↔
        ¬ (b1.1 = SQLITE_OK ∧ b2.1 = SQLITE_OK ∧ st.1 = SQLITE_DONE)) ∧
    ((b1.1 = SQLITE_OK ∧ b2.1 = SQLITE_OK ∧ (st.1 = SQLITE_OK ∨ st.1 = SQLITE_ROW)) →
        ∃ w', s.insert E key value w = .terminated w') := by
  intro b1 b2 st
  have key3 : (∃ w', s.insert E key value w = .terminated w') ↔
      ¬ (b1.1 = SQLITE_OK ∧ b2.1 = SQLITE_OK ∧ st.1 = SQLITE_DONE) := by
    rw [run_insert]
    constructor
    · rintro ⟨w', h⟩ ⟨h1, h2, h3⟩
      simp only [b1, b2, st] at h1 h2 h3
      rw [if_pos h1, if_pos h2, if_pos h3] at h
      cases h
    · intro hn
      split_ifs with h1 h2 h3
      · exact absurd ⟨h1, h2, h3⟩ hn
      · exact ⟨_, rfl⟩
      · exact ⟨_, rfl⟩
      · exact ⟨_, rfl⟩
  refine ⟨?_, key3, ?_⟩
  · rw [run_insert]
    constructor
    · rintro ⟨w', h⟩
      split_ifs at h with h1 h2 h3
      exact ⟨h1, h2, h3⟩
    · rintro ⟨h1, h2, h3⟩
      simp only [b1, b2, st] at h1 h2 h3
      rw [if_pos h1, if_pos h2, if_pos h3]
      exact ⟨_, rfl⟩
  · rintro ⟨_, _, h3⟩
    refine key3.mpr ?_
    rintro ⟨_, _, hd⟩
    rcases h3 with h3 | h3 <;> rw [h3] at hd <;> revert hd <;> decide

/-- C7. On a store that construction has returned, a sequence of `insert` calls
that all return, with arrays whose sizes fit a C `int`, issues for each call
exactly `sqlite3_bind_text(stmt, 1, key, N1, SQLITE_STATIC)`,
`sqlite3_bind_text(stmt, 2, value, N2, SQLITE_STATIC)` and `sqlite3_step(stmt)`,
in that order, where `N1` and `N2` are the array sizes and `stmt` is the
statement that the one prepare of the construction produced: the trace since
the start of construction is open, exec, prepare and then one such triple per
insert, with no other call in between. -/
theorem inserts_issue_bind_bind_step (E : Engine) (w0 w w' : World E) (s : kv_store)
    (kvs : List (CharArray × CharArray))
    (hc : kv_store.ctor E w0 = .returned s w)
    (hi : inserts E s kvs w = .returned () w')
    (hsize : ∀ kv ∈ kvs, kv.1.length < 2 ^ 31 ∧ kv.2.length < 2 ^ 31) :
    w'.trace = w0.trace ++
        [Call.open_v2 (lit "") (SQLITE_OPEN_READWRITE ||| SQLITE_OPEN_CREATE),
         Call.exec s.db create_table_sql,
         Call.prepare_v2 s.db insert_sql 40] ++
        kvs.flatMap (fun kv =>
          [Call.bind_text s.stmt 1 kv.1 (kv.1.length : Int) Destructor.SQLITE_STATIC,
           Call.bind_text s.stmt 2 kv.2 (kv.2.length : Int) Destructor.SQLITE_STATIC,
           Call.step s.stmt]) ∧
      s.stmt = (E.sqlite3_prepare_v2
        (E.sqlite3_exec
          (E.sqlite3_open_v2 w0.engine (lit "")
            (SQLITE_OPEN_READWRITE ||| SQLITE_OPEN_CREATE)).2.2
          s.db create_table_sql).2
        s.db insert_sql 40).2.1 := by
  obtain ⟨hs, hw⟩ := ctor_returned E w0 w s hc
  have ht := inserts_returned_trace E s kvs w w' hi
  rw [triples_of_sizes s.stmt kvs hsize] at ht
  rw [ht, hw]
  subst hs
  exact ⟨rfl, rfl⟩

/-- C10. If the bind of parameter 1 or the bind of parameter 2 of an `insert`
returns a status other than `SQLITE_OK`, the process terminates inside that
`insert` after the failed bind: the calls added are the first bind alone or
the two binds, no step is issued, and, in every engine whose binds leave the
table untouched, the rows of the table are those present before the call. -/
theorem insert_failed_bind_adds_no_row (E : Engine) (T : Type) (rows : E.State → T)
    (s : kv_store) (key value : CharArray) (w : World E)
    (hframe : ∀ e st i v n d, rows (E.sqlite3_bind_text e st i v n d).2 = rows e)
    (hfail :
      (E.sqlite3_bind_text w.engine s.stmt 1 key (size_t_to_int key.length)
        Destructor.SQLITE_STATIC).1 ≠ SQLITE_OK ∨
      (E.sqlite3_bind_text
        (E.sqlite3_bind_text w.engine s.stmt 1 key (size_t_to_int key.length)
          Destructor.SQLITE_STATIC).2
        s.stmt 2 value (size_t_to_int value.length) Destructor.SQLITE_STATIC).1 ≠ SQLITE_OK) :
    ∃ w', s.insert E key value w = .terminated w' ∧
      (w'.trace = w.trace ++
          [Call.bind_text s.stmt 1 key (size_t_to_int key.length) Destructor.SQLITE_STATIC] ∨
        w'.trace = w.trace ++
          [Call.bind_text s.stmt 1 key (size_t_to_int key.length) Destructor.SQLITE_STATIC,
           Call.bind_text s.stmt 2 value (size_t_to_int value.length)
             Destructor.SQLITE_STATIC]) ∧
      w'.trace.countP Call.is_step = w.trace.countP Call.is_step ∧
      rows w'.engine = rows w.engine := by
  rw [run_insert]
  by_cases h1 : (E.sqlite3_bind_text w.engine s.stmt 1 key (size_t_to_int key.length)
      Destructor.SQLITE_STATIC).1 = SQLITE_OK
  · have h2 : (E.sqlite3_bind_text
        (E.sqlite3_bind_text w.engine s.stmt 1 key (size_t_to_int key.length)
          Destructor.SQLITE_STATIC).2
        s.stmt 2 value (size_t_to_int value.length) Destructor.SQLITE_STATIC).1
        ≠ SQLITE_OK := by
      rcases hfail with h | h
      · exact absurd h1 h
      · exact h
    rw [if_pos h1, if_neg h2]
    refine ⟨_, rfl, Or.inr rfl, ?_, ?_⟩
    · simp [List.countP_append, List.countP_cons, Call.is_step]
    · simp only [hframe]
  · rw [if_neg h1]
    refine ⟨_, rfl, Or.inl rfl, ?_, ?_⟩
    · simp [List.countP_append, List.countP_cons, Call.is_step]
    · simp only [hframe]

/-! ## Destruction and whole lifetimes -/

/-- C4. Destroying a `kv_store` that holds a connection and a statement issues
`sqlite3_finalize` on the insert statement and then `sqlite3_close_v2` on the
connection, in that order and nothing else: this is the trace of every
destruction that completes, and in general the close follows the finalize once
the finalize has returned `SQLITE_OK`.  In the trace of every store lifetime,
however the lifetime ends, no bind, step or finalize comes after a close. -/
theorem dtor_finalizes_then_closes (E : Engine) (s : kv_store) (w : World E)
    (kvs : List (CharArray × CharArray)) (e0 : E.State)
    (hdb : s.db ≠ nullptr) (hst : s.stmt ≠ nullptr) :
    (∀ w', s.dtor E w = .returned () w' →
        w'.trace = w.trace ++ [Call.finalize s.stmt, Call.close_v2 s.db]) ∧
      (s.dtor E w).world.trace = w.trace ++
        (Call.finalize s.stmt ::
          if (E.sqlite3_finalize w.engine s.stmt).1 = SQLITE_OK then [Call.close_v2 s.db]
          else []) ∧
      no_use_after_close (lifetime E kvs ⟨e0, []⟩).world.trace = true := by
  refine ⟨?_, ?_, ?_⟩
  · intro w' h
    rw [run_dtor E s w hdb hst] at h
    split_ifs at h
    simp only [Outcome.returned.injEq, true_and] at h
    rw [← h]
  · rw [run_dtor E s w hdb hst]
    split_ifs <;> rfl
  · rw [run_lifetime, run_ready]
    obtain ⟨t1, h1, hc1⟩ := ctor_adds E ⟨e0, []⟩
    cases hc : kv_store.ctor E ⟨e0, []⟩ with
    | terminated w1 =>
      rw [hc] at h1
      simp only [Outcome.world, List.nil_append] at h1 ⊢
      rw [h1]
      have := no_use_after_close_append t1 [] hc1
      simpa using this
    | returned s1 w1 =>
      rw [hc] at h1
      simp only [Outcome.world, List.nil_append] at h1 ⊢
      obtain ⟨t2, h2, hc2⟩ := inserts_adds E s1 kvs w1
      cases hi : inserts E s1 kvs w1 with
      | terminated w2 =>
        rw [hi] at h2
        simp only [Outcome.world] at h2 ⊢
        rw [h2, h1]
        have := no_use_after_close_append (t1 ++ t2) []
          (by simp only [List.all_append, hc1, hc2, Bool.and_self])
        simpa using this
      | returned u w2 =>
        rw [hi] at h2
        simp only [Outcome.world] at h2
        obtain ⟨t3, h3, hc3⟩ := dtor_adds E s1 w2
        show no_use_after_close (s1.dtor E w2).world.trace = true
        rw [h3, h2, h1,
          no_use_after_close_append (t1 ++ t2) t3
            (by simp only [List.all_append, hc1, hc2, Bool.and_self])]
        exact hc3

/-- C6. In a store lifetime that runs from construction through any number of
returning `insert` calls to a completed destruction, where the store holds a
connection and a statement, the engine-call trace has exactly one open, one
prepare, one finalize and one close, whatever the number of inserts. -/
theorem lifetime_acquires_and_releases_once (E : Engine)
    (kvs : List (CharArray × CharArray)) (e0 : E.State) (s : kv_store) (w1 w2 : World E)
    (hready : ready E kvs ⟨e0, []⟩ = .returned s w1)
    (hdb : s.db ≠ nullptr) (hst : s.stmt ≠ nullptr)
    (hd : s.dtor E w1 = .returned () w2) :
    lifetime E kvs ⟨e0, []⟩ = .returned () w2 ∧
      w2.trace.countP Call.is_open = 1 ∧
      w2.trace.countP Call.is_prepare = 1 ∧
      w2.trace.countP Call.is_finalize = 1 ∧
      w2.trace.countP Call.is_close = 1 := by
  refine ⟨by rw [run_lifetime, hready]; exact hd, ?_⟩
  obtain ⟨w0, hc, hi⟩ := ready_returned E kvs _ w1 s hready
  obtain ⟨-, hw0⟩ := ctor_returned E _ w0 s hc
  have ht := inserts_returned_trace E s kvs w0 w1 hi
  rw [run_dtor E s w1 hdb hst] at hd
  split_ifs at hd
  simp only [Outcome.returned.injEq, true_and] at hd
  rw [← hd]
  simp only [ht, hw0, List.nil_append]
  refine ⟨?_, ?_, ?_, ?_⟩ <;>
    simp [List.countP_append, List.countP_cons, countP_triples, Call.is_open, Call.is_prepare,
      Call.is_finalize, Call.is_close]

/-! ## The table under the modelled engine -/

/-- C1, at the scenario of the claim. On the modelled engine the store is
constructed and `insert("a", "1")` returns, but the process terminates inside
`insert("a", "2")`: its first bind is issued on the statement that the first
insert stepped and that the header never resets, the engine answers
`SQLITE_MISUSE`, and `expects` calls `std::terminate`.  The trace ends with
that bind, the third insert is never reached, and the table holds one row
instead of three. -/
theorem second_insert_terminates :
    (ready specEngine scenario specEngine.start).returns = false ∧
      (ready specEngine scenario specEngine.start).world.trace =
        [Call.open_v2 (lit "") 6,
         Call.exec spec_engine.the_db create_table_sql,
         Call.prepare_v2 spec_engine.the_db insert_sql 40,
         Call.bind_text spec_engine.the_stmt 1 (lit "a") 2 Destructor.SQLITE_STATIC,
         Call.bind_text spec_engine.the_stmt 2 (lit "1") 2 Destructor.SQLITE_STATIC,
         Call.step spec_engine.the_stmt,
         Call.bind_text spec_engine.the_stmt 1 (lit "a") 2 Destructor.SQLITE_STATIC] ∧
      specEngine.rows (ready specEngine scenario specEngine.start).world.engine =
        [(some (lit "a"), some (lit "1"))] ∧
      (specEngine.sqlite3_bind_text specEngine.after_one.engine spec_engine.the_stmt 1
          (lit "a") 2 Destructor.SQLITE_STATIC).1 = spec_engine.SQLITE_MISUSE := by
  refine ⟨by rfl, by rfl, by rfl, by rfl⟩

/-- C2. On the modelled engine, for a key array of size `N1` and a value array
of size `N2` (sizes that fit a C `int`): the first `insert` on a newly
constructed store returns and adds one row whose key column is exactly the
`N1` bytes of the key array and whose value column is exactly the `N2` bytes
of the value array; and on any store in any engine state, an `insert` either
returns having added exactly that row, or terminates the process having added
none.  For string literals the sizes are the string lengths plus one, the
terminator being stored too. -/
theorem insert_stores_exact_bytes (key value : CharArray)
    (hk : key.length < 2 ^ 31) (hv : value.length < 2 ^ 31) :
    (∃ (s : kv_store) (w w' : World specEngine),
        kv_store.ctor specEngine specEngine.start = .returned s w ∧
        s.insert specEngine key value w = .returned () w' ∧
        specEngine.rows w'.engine = specEngine.rows w.engine ++ [(some key, some value)]) ∧
      (∀ (s : kv_store) (w : World specEngine),
        (∃ w', s.insert specEngine key value w = .returned () w' ∧
          specEngine.rows w'.engine = specEngine.rows w.engine ++ [(some key, some value)]) ∨
        (∃ w', s.insert specEngine key value w = .terminated w' ∧
          specEngine.rows w'.engine = specEngine.rows w.engine)) ∧
      (∀ a b : String, key = lit a → value = lit b →
        key.length = a.length + 1 ∧ value.length = b.length + 1 ∧
        key.getLast? = some NUL ∧ value.getLast? = some NUL) := by
  refine ⟨?_, ?_, ?_⟩
  · refine ⟨_, _, _, spec_run_ctor,
      spec_run_insert specEngine.store rfl key value _ _ (none, none) [] rfl rfl rfl, ?_⟩
    simp only [specEngine.rows, text_of_size _ hk, text_of_size _ hv, List.nil_append]
  · intro s w
    have h := spec_insert_effect s key value w
    rw [text_of_size _ hk, text_of_size _ hv] at h
    exact h
  · intro a b ha hb
    subst ha hb
    exact ⟨lit_length a, lit_length b, lit_getLast a, lit_getLast b⟩

/-! ## The length passed to prepare -/

/-- C9, as stated, fails on the insert statement: its source text has 39
characters, and the byte length that construction hands to
`sqlite3_prepare_v2` is 40, not 39. -/
theorem prepare_length_is_not_text_length :
    prepare_lengths (kv_store.ctor specEngine specEngine.start).world.trace = [40] ∧
      "INSERT INTO kv(key, value) VALUES(?, ?)".length = 39 ∧
      ¬ (prepare_lengths (kv_store.ctor specEngine specEngine.start).world.trace =
          [("INSERT INTO kv(key, value) VALUES(?, ?)".length : Int)]) := by
  refine ⟨by rfl, by rfl, by decide⟩

/-- C9, amended. For every SQL string literal passed to the statement
constructor whose array size fits a C `int`, the byte length handed to
`sqlite3_prepare_v2` is the array size of the literal, which is the length of
the source text plus one for the terminating null, and the array handed over
is the source text followed by that null; the text the engine reads from it,
up to the terminator, is the source text, neither truncated nor extended. -/
theorem prepare_length_is_array_size (E : Engine) (db : db_t) (sql : String) (w : World E)
    (hsize : sql.length + 1 < 2 ^ 31) (hnul : NUL ∉ sql.toList) :
    (stmt_t.ctor E db (lit sql) w).world.trace =
        w.trace ++ [Call.prepare_v2 db.get (lit sql) ((sql.length : Int) + 1)] ∧
      (lit sql).length = sql.length + 1 ∧
      lit sql = sql.toList ++ [NUL] ∧
      sql_text (lit sql) ((sql.length : Int) + 1) = sql.toList := by
  have hlen : (lit sql).length = sql.length + 1 := lit_length sql
  refine ⟨?_, hlen, rfl, ?_⟩
  · simp only [stmt_t.ctor, run_bind, run_pure, run_expects, sqlite3_prepare_v2, hlen,
      size_t_to_int_of_lt _ hsize]
    split_ifs <;> simp [Outcome.world]
  · have h0 : ¬ ((sql.length : Int) + 1 < 0) := by omega
    have h1 : ((sql.length : Int) + 1).toNat = (sql.toList ++ [NUL]).length := by
      have := lit_length sql
      unfold lit at this
      omega
    unfold sql_text lit
    rw [if_neg h0, h1, List.take_length]
    exact takeWhile_lit _ hnul

/-! ## The theorems at concrete inputs -/

/-- An instance of C2: the first insert on a new store, `insert("a", "1")`,
adds the row of the two-byte arrays `a\0` and `1\0`. -/
theorem insert_stores_exact_bytes_witness :
    (∃ (s : kv_store) (w w' : World specEngine),
        kv_store.ctor specEngine specEngine.start = .returned s w ∧
        s.insert specEngine (lit "a") (lit "1") w = .returned () w' ∧
        specEngine.rows w'.engine =
          specEngine.rows w.engine ++ [(some (lit "a"), some (lit "1"))]) ∧
      (∀ (s : kv_store) (w : World specEngine),
        (∃ w', s.insert specEngine (lit "a") (lit "1") w = .returned () w' ∧
          specEngine.rows w'.engine =
            specEngine.rows w.engine ++ [(some (lit "a"), some (lit "1"))]) ∨
        (∃ w', s.insert specEngine (lit "a") (lit "1") w = .terminated w' ∧
          specEngine.rows w'.engine = specEngine.rows w.engine)) ∧
      (∀ a b : String, lit "a" = lit a → lit "1" = lit b →
        (lit "a").length = a.length + 1 ∧ (lit "1").length = b.length + 1 ∧
        (lit "a").getLast? = some NUL ∧ (lit "1").getLast? = some NUL) :=
  insert_stores_exact_bytes (lit "a") (lit "1") (by decide) (by decide)

/-- An instance of C3: a step that reports `SQLITE_ROW` after two successful
binds terminates the process. -/
theorem insert_returns_iff_witness :
    ∃ w', kv_store.insert scriptedEngine scriptedEngine.store (lit "a") (lit "1")
      ⟨[SQLITE_OK, SQLITE_OK, SQLITE_ROW], []⟩ = .terminated w' :=
  (insert_returns_iff scriptedEngine scriptedEngine.store (lit "a") (lit "1")
    ⟨[SQLITE_OK, SQLITE_OK, SQLITE_ROW], []⟩).2.2 ⟨rfl, rfl, Or.inr rfl⟩

/-- An instance of C4 on the modelled engine: the destruction of a store after
one insert adds a finalize and then a close, and the whole lifetime has no
statement use after the close. -/
theorem dtor_finalizes_then_closes_witness :
    (∀ w', kv_store.dtor specEngine specEngine.store specEngine.after_one = .returned () w' →
        w'.trace = specEngine.after_one.trace ++
          [Call.finalize spec_engine.the_stmt, Call.close_v2 spec_engine.the_db]) ∧
    (kv_store.dtor specEngine specEngine.store specEngine.after_one).world.trace =
      specEngine.after_one.trace ++
        [Call.finalize spec_engine.the_stmt, Call.close_v2 spec_engine.the_db] ∧
      no_use_after_close
        (lifetime specEngine [(lit "a", lit "1")] specEngine.start).world.trace = true :=
  dtor_finalizes_then_closes specEngine specEngine.store specEngine.after_one
    [(lit "a", lit "1")] spec_engine.fresh (by decide) (by decide)

/-- An instance of C5 on the modelled engine. -/
theorem ctor_issues_open_exec_prepare_witness :
    kv_store.ctor specEngine specEngine.start =
        .returned specEngine.store (kv_store.ctor specEngine specEngine.start).world ∧
      (kv_store.ctor specEngine specEngine.start).world.trace =
        [Call.open_v2 (lit "") 6,
         Call.exec spec_engine.the_db create_table_sql,
         Call.prepare_v2 spec_engine.the_db insert_sql 40] :=
  ⟨rfl, (ctor_issues_open_exec_prepare specEngine specEngine.start
    (kv_store.ctor specEngine specEngine.start).world specEngine.store rfl).1⟩

/-- An instance of C6 on the fault-injecting engine: a lifetime with three
inserts that all succeed. -/
theorem lifetime_acquires_and_releases_once_witness :
    lifetime scriptedEngine scenario scriptedEngine.three_inserts =
        .returned () (lifetime scriptedEngine scenario scriptedEngine.three_inserts).world ∧
      (lifetime scriptedEngine scenario scriptedEngine.three_inserts).world.trace.countP
        Call.is_open = 1 ∧
      (lifetime scriptedEngine scenario scriptedEngine.three_inserts).world.trace.countP
        Call.is_prepare = 1 ∧
      (lifetime scriptedEngine scenario scriptedEngine.three_inserts).world.trace.countP
        Call.is_finalize = 1 ∧
      (lifetime scriptedEngine scenario scriptedEngine.three_inserts).world.trace.countP
        Call.is_close = 1 :=
  lifetime_acquires_and_releases_once scriptedEngine scenario
    scriptedEngine.three_inserts.engine scriptedEngine.store
    (ready scriptedEngine scenario scriptedEngine.three_inserts).world
    (lifetime scriptedEngine scenario scriptedEngine.three_inserts).world
    rfl (by decide) (by decide) rfl

/-- An instance of C7 on the fault-injecting engine: the three inserts of the
scenario after construction, all succeeding. -/
theorem inserts_issue_bind_bind_step_witness :
    (ready scriptedEngine scenario scriptedEngine.three_inserts).world.trace =
      [Call.open_v2 (lit "") 6,
       Call.exec 1 create_table_sql,
       Call.prepare_v2 1 insert_sql 40,
       Call.bind_text 2 1 (lit "a") 2 Destructor.SQLITE_STATIC,
       Call.bind_text 2 2 (lit "1") 2 Destructor.SQLITE_STATIC,
       Call.step 2,
       Call.bind_text 2 1 (lit "a") 2 Destructor.SQLITE_STATIC,
       Call.bind_text 2 2 (lit "2") 2 Destructor.SQLITE_STATIC,
       Call.step 2,
       Call.bind_text 2 1 (lit "b") 2 Destructor.SQLITE_STATIC,
       Call.bind_text 2 2 (lit "3") 2 Destructor.SQLITE_STATIC,
       Call.step 2] :=
  (inserts_issue_bind_bind_step scriptedEngine scriptedEngine.three_inserts
    (kv_store.ctor scriptedEngine scriptedEngine.three_inserts).world
    (ready scriptedEngine scenario scriptedEngine.three_inserts).world
    scriptedEngine.store scenario rfl rfl (by decide)).1

/-- An instance of C8: when the schema-creation exec fails, the process
terminates after the open and the exec, and nothing else is called. -/
theorem ctor_completes_iff_witness :
    kv_store.ctor scriptedEngine ⟨[SQLITE_OK, 1], []⟩ =
      .terminated ⟨[], [Call.open_v2 (lit "") 6, Call.exec 1 create_table_sql]⟩ :=
  (ctor_completes_iff scriptedEngine ⟨[SQLITE_OK, 1], []⟩).2.2.1 rfl (by decide)

/-- An instance of amended C9: the insert statement, 39 characters, is
prepared with byte length 40. -/
theorem prepare_length_is_array_size_witness :
    (stmt_t.ctor specEngine ⟨spec_engine.the_db⟩ insert_sql specEngine.created).world.trace =
        [Call.prepare_v2 spec_engine.the_db insert_sql 40] ∧
      insert_sql.length = 39 + 1 ∧
      insert_sql = "INSERT INTO kv(key, value) VALUES(?, ?)".toList ++ [NUL] ∧
      sql_text insert_sql 40 = "INSERT INTO kv(key, value) VALUES(?, ?)".toList :=
  prepare_length_is_array_size specEngine ⟨spec_engine.the_db⟩
    "INSERT INTO kv(key, value) VALUES(?, ?)" specEngine.created (by decide) (by decide)

/-- An instance of C10 on the modelled engine: in the world after construction
and one insert, the first bind of the next insert fails, and the one row of
the table stays the only one. -/
theorem insert_failed_bind_adds_no_row_witness :
    ∃ w' : World specEngine,
      kv_store.insert specEngine specEngine.store (lit "a") (lit "2") specEngine.after_one =
        .terminated w' ∧
      (w'.trace = specEngine.after_one.trace ++
          [Call.bind_text spec_engine.the_stmt 1 (lit "a")
            (size_t_to_int (lit "a").length) Destructor.SQLITE_STATIC] ∨
        w'.trace = specEngine.after_one.trace ++
          [Call.bind_text spec_engine.the_stmt 1 (lit "a")
            (size_t_to_int (lit "a").length) Destructor.SQLITE_STATIC,
           Call.bind_text spec_engine.the_stmt 2 (lit "2")
            (size_t_to_int (lit "2").length) Destructor.SQLITE_STATIC]) ∧
      w'.trace.countP Call.is_step = specEngine.after_one.trace.countP Call.is_step ∧
      specEngine.rows w'.engine = [(some (lit "a"), some (lit "1"))] :=
  insert_failed_bind_adds_no_row specEngine (List spec_engine.Row) specEngine.rows
    specEngine.store (lit "a") (lit "2") specEngine.after_one spec_bind_frame
    (Or.inl (by decide))

end sqlite_kv_store
